import Mathlib

/-!
Verification of the blitter abstraction of this OpenTTD patch tree.

The repository excerpt contains the abstract blitter interface
(src/blitter/blitter.h), the airport save/load chunk table
(src/saveload/airport_sl.cpp) and its helper header.  The concrete
backend implementations (8bpp/16bpp/24bpp/32bpp and the null backend)
and the registry implementation are not part of the excerpt, so those
parts are modelled from the specification; everything that is present
in the sources (the `usable` predicate, the `AllocateSprite` helper,
the airport chunk handler table) is translated directly from them.
-/

namespace Blitter

/-- Enumeration translated from blitter.h: the modes of blitting. -/
inductive BlitterMode
  | BM_NORMAL
  | BM_COLOUR_REMAP
  | BM_TRANSPARENT
  | BM_CRASH_REMAP
  | BM_BLACK_REMAP
deriving DecidableEq

/-- Enumeration translated from blitter.h: types of palette animation. -/
inductive PaletteAnimation
  | PALETTE_ANIMATION_NONE
  | PALETTE_ANIMATION_VIDEO_BACKEND
  | PALETTE_ANIMATION_BLITTER
deriving DecidableEq

/-- Modelled from the spec: the concrete backend variants (the spec lists
indexed-8bpp, truecolour-16/24/32bpp and a null/dummy backend); the
concrete backend sources are not part of this excerpt, only the abstract
interface in blitter.h is. -/
inductive BlitterKind
  | indexed8
  | truecolour16
  | truecolour24
  | truecolour32
  | dummy
deriving DecidableEq

/-- Modelled from the spec: GetScreenDepth is fixed per backend and is one
of 8, 16, 24 or 32. -/
def GetScreenDepth : BlitterKind → Nat
  | .indexed8 => 8
  | .truecolour16 => 16
  | .truecolour24 => 24
  | .truecolour32 => 32
  | .dummy => 8

/-- Modelled from the spec: GetBytesPerPixel gives how many bytes are
needed to store one pixel of that backend. -/
def GetBytesPerPixel : BlitterKind → Nat
  | .indexed8 => 1
  | .truecolour16 => 2
  | .truecolour24 => 3
  | .truecolour32 => 4
  | .dummy => 1

/-- Modelled from the spec: BufferSize is a pure function of the backend
storage layout, the bytes needed for a width times height video buffer. -/
def BufferSize (k : BlitterKind) (width height : Nat) : Nat :=
  width * height * GetBytesPerPixel k

/-- Translated from blitter.h: the static usable check of the base class
always returns true. -/
def usable (_ : BlitterKind) : Bool := true

/-- Modelled from the spec: the registered backend variants, by name. -/
def blitter_list : List (String × BlitterKind) :=
  [("8bpp-simple", .indexed8), ("16bpp-simple", .truecolour16),
   ("24bpp-simple", .truecolour24), ("32bpp-simple", .truecolour32),
   ("null", .dummy)]

/-- Modelled from the spec: the process-wide registry state, the currently
active backend plus the autodetected flag declared in blitter.h. -/
structure RegistryState where
  current : Option BlitterKind
  autodetected : Bool
deriving DecidableEq

/-- Modelled from the spec: exact name lookup among the registered
backend variants. -/
def find_blitter (name : String) : Option BlitterKind :=
  (blitter_list.find? (fun p => p.1 == name)).map Prod.snd

/-- Modelled from the spec: the automatic best-available choice; every
registered backend reports usable, and the null/dummy backend is the last
resort, so the fallback is total. -/
def autoselect : BlitterKind :=
  (((blitter_list.filter (fun p => usable p.2)).head?).map Prod.snd).getD .dummy

/-- Modelled from the spec: select looks the name up among the registered
variants; on a match that backend becomes the active one and is returned;
on no match the automatic best-available choice is taken and the
autodetected flag is set. -/
def select (name : String) (st : RegistryState) : BlitterKind × RegistryState :=
  match find_blitter name with
  | some b => (b, { current := some b, autodetected := st.autodetected })
  | none => (autoselect, { current := some autoselect, autodetected := true })

/-- Translated from blitter.h: get returns the currently active backend,
set by calling select. -/
def get (st : RegistryState) : Option BlitterKind :=
  st.current

/-- Modelled from the spec: one pixel of a loader sprite, the universal
loaded-sprite representation with per-pixel red, green, blue, alpha and
the mask/palette channel m (the spriteloader header is not part of this
excerpt). -/
structure LoaderPixel where
  r : Nat
  g : Nat
  b : Nat
  a : Nat
  m : Nat
deriving DecidableEq

/-- Modelled from the spec: a loader sprite, the universal loaded-sprite
representation handed to Encode: metadata plus per-pixel data. -/
structure LoaderSprite where
  height : Nat
  width : Nat
  x_offs : Int
  y_offs : Int
  pixels : Nat → Nat → LoaderPixel

/-- Generic sprite block as allocated by AllocateSprite: the four metadata
fields shared by every backend sprite type T, plus an uninterpreted
payload standing for the trailing pixel data of the block. -/
structure SpriteT where
  height : Nat
  width : Nat
  x_offs : Int
  y_offs : Int
  payload : List Nat
deriving DecidableEq

/-- Translated from blitter.h: AllocateSprite calls the allocator with
sizeof T plus extra bytes and copies the height, width, x_offs and y_offs
fields from the loader sprite into the block.  The allocator result is
dereferenced unconditionally (there is no null check), modelled here by
Option.map with no fallback branch: a failing allocator is outside the
precondition. -/
def AllocateSprite (sprite : LoaderSprite) (allocator : Nat → Option SpriteT)
    (sizeofT : Nat) (extra : Nat) : Option SpriteT :=
  (allocator (sizeofT + extra)).map fun s =>
    { s with height := sprite.height, width := sprite.width,
             x_offs := sprite.x_offs, y_offs := sprite.y_offs }

/-- Concrete loader sprite used by witnesses. -/
def sprite_ex : LoaderSprite :=
  { height := 3, width := 5, x_offs := 2, y_offs := -1,
    pixels := fun _ _ => ⟨10, 20, 30, 255, 7⟩ }

/-- Concrete allocator used by witnesses: hands out a block whose metadata
fields hold junk and whose payload records the requested size. -/
def alloc_ex : Nat → Option SpriteT :=
  fun n => some { height := 99, width := 99, x_offs := 99, y_offs := 99,
                  payload := List.replicate n 0 }

/-- Modelled from the spec: the pixel contents of a Surface, indexed by
the x and y screen coordinates.  The concrete Surface implementations
are not part of this excerpt; a surface is modelled by the colour value
stored at each coordinate, with the pixel type a parameter (palette
index for the 8bpp backend, an RGBA quadruple for truecolour). -/
def Grid (α : Type) : Type :=
  Int → Int → α

/-- Rectangle given by the left/top/width/height values passed by
reference to Surface scroll. -/
structure Rect where
  left : Int
  top : Int
  width : Int
  height : Int
deriving DecidableEq

/-- Containment of a coordinate in the half-open rectangle
[left, left+width) times [top, top+height). -/
def inRect (r : Rect) (x y : Int) : Prop :=
  r.left ≤ x ∧ x < r.left + r.width ∧ r.top ≤ y ∧ y < r.top + r.height

instance (r : Rect) (x y : Int) : Decidable (inRect r x y) := by
  unfold inRect
  exact inferInstance

/-- Modelled from the spec: the clamped visible rectangle that scroll
reports back through its in/out left/top/width/height parameters: the
part of the original rectangle that receives shifted content. -/
def scroll_rect (r : Rect) (scroll_x scroll_y : Int) : Rect :=
  { left := r.left + max scroll_x 0,
    top := r.top + max scroll_y 0,
    width := max (r.width - (scroll_x.natAbs : Int)) 0,
    height := max (r.height - (scroll_y.natAbs : Int)) 0 }

/-- Modelled from the spec: scroll shifts the content of the given
sub-rectangle in place by the scroll offsets, clamped so that no read or
write occurs outside the original rectangle; pixels outside the clamped
visible rectangle are left unchanged, and the adjusted rectangle is
returned (the updated in/out left/top/width/height parameters). -/
def scroll {α : Type} (g : Grid α) (r : Rect) (scroll_x scroll_y : Int) :
    Grid α × Rect :=
  (fun x y =>
      if inRect (scroll_rect r scroll_x scroll_y) x y then
        g (x - scroll_x) (y - scroll_y)
      else g x y,
   scroll_rect r scroll_x scroll_y)

/-- Modelled from the spec: copy captures a width times height rectangle
of surface pixels at (x, y) into a caller buffer; the buffer format is
backend-private, modelled as the list of pixel rows. -/
def copy {α : Type} (g : Grid α) (x y : Int) (width height : Nat) :
    List (List α) :=
  (List.range height).map fun (j : Nat) =>
    (List.range width).map fun (i : Nat) => g (x + (i : Int)) (y + (j : Int))

/-- Modelled from the spec: paste writes a buffer previously captured by
copy back onto the surface at (x, y); pixels outside the pasted
rectangle, and positions the buffer has no entry for, are unchanged. -/
def paste {α : Type} (g : Grid α) (src : List (List α)) (x y : Int)
    (width height : Nat) : Grid α :=
  fun px py =>
    if x ≤ px ∧ px < x + width ∧ y ≤ py ∧ py < y + height then
      match (src[(py - y).toNat]?).bind fun row => row[(px - x).toNat]? with
      | some c => c
      | none => g px py
    else g px py

/-- RGBA pixel of the truecolour backends. -/
structure Colour where
  r : Nat
  g : Nat
  b : Nat
  a : Nat
deriving DecidableEq

/-- Modelled from the spec: the public stable byte encoding of one 8bpp
pixel in export_lines output: one palette index byte. -/
def pixel_bytes_8bpp (c : Nat) : List Nat :=
  [c % 256]

/-- Modelled from the spec: the public stable byte encoding of one
truecolour pixel in export_lines output: four packed RGBA bytes. -/
def pixel_bytes_32bpp (c : Colour) : List Nat :=
  [c.r % 256, c.g % 256, c.b % 256, c.a % 256]

/-- Modelled from the spec: export_lines converts height surface lines
starting at line y into the public format: each output line holds the
encodings of the width pixels of that surface line followed by zero
padding up to dst_pitch bytes. -/
def export_lines {α : Type} (pb : α → List Nat) (bpp : Nat) (g : Grid α)
    (width dst_pitch y height : Nat) : List Nat :=
  (List.range height).flatMap fun j =>
    ((List.range width).flatMap fun i => pb (g (i : Int) ((y + j : Nat) : Int)))
      ++ List.replicate (dst_pitch - width * bpp) 0

/-- Modelled from the spec: a sprite as encoded by the 8bpp indexed
backend: the four metadata fields set by AllocateSprite plus one palette
index per source pixel, index 0 being the transparent sentinel. -/
structure Sprite8 where
  height : Nat
  width : Nat
  x_offs : Int
  y_offs : Int
  data : Nat → Nat → Nat

/-- Modelled from the spec: Encode converts a loader sprite into the
native storage of the 8bpp indexed backend: a pixel whose loader alpha
is zero encodes to the transparent sentinel 0, every other pixel encodes
to its mask/palette channel m. -/
def Encode (sprite : LoaderSprite) : Sprite8 :=
  { height := sprite.height, width := sprite.width,
    x_offs := sprite.x_offs, y_offs := sprite.y_offs,
    data := fun x y =>
      if (sprite.pixels x y).a = 0 then 0 else (sprite.pixels x y).m }

/-- Translated from blitter.h, specialised to the modelled 8bpp backend:
the parameters of one blit operation.  The destination pointer and pitch
of the source struct are replaced by the destination grid Draw writes
into; the remap array is the optional remap table view. -/
structure BlitterParams where
  sprite : Sprite8
  remap : Nat → Nat
  skip_left : Nat
  skip_top : Nat
  width : Nat
  height : Nat
  left : Int
  top : Int

/-- Modelled from the spec: the fixed system-wide remap tables used by
the transparency, crash and blacken modes; they are external palette
data, so Draw is parameterised over them. -/
structure RemapTables where
  transparency : Nat → Nat
  crash : Nat → Nat
  black : Nat

/-- Modelled from the spec: Draw composites bp.sprite onto the
destination grid at (bp.left, bp.top), clipped to bp.width times
bp.height, skipping bp.skip_left and bp.skip_top source pixels; a source
palette index 0 is the transparent marker and is skipped in every mode;
BM_NORMAL writes the source index, BM_COLOUR_REMAP writes the remapped
index unless the mapped value is the transparent sentinel 0,
BM_TRANSPARENT darkens the destination pixel through the fixed
transparency table, BM_CRASH_REMAP uses the fixed crash table and
BM_BLACK_REMAP writes the black colour index. -/
def Draw (tables : RemapTables) (g : Grid Nat) (bp : BlitterParams)
    (mode : BlitterMode) : Grid Nat :=
  fun px py =>
    if bp.left ≤ px ∧ px < bp.left + bp.width ∧
        bp.top ≤ py ∧ py < bp.top + bp.height then
      let srcc := bp.sprite.data (bp.skip_left + (px - bp.left).toNat)
        (bp.skip_top + (py - bp.top).toNat)
      if srcc = 0 then g px py
      else
        match mode with
        | .BM_NORMAL => srcc
        | .BM_COLOUR_REMAP =>
            if bp.remap srcc = 0 then g px py else bp.remap srcc
        | .BM_TRANSPARENT => tables.transparency (g px py)
        | .BM_CRASH_REMAP =>
            if tables.crash srcc = 0 then g px py else tables.crash srcc
        | .BM_BLACK_REMAP => tables.black
    else g px py

/-- Concrete 8bpp surface contents used by witnesses. -/
def sample_grid8 : Grid Nat :=
  fun x y => ((3 * x + y).natAbs + 1) % 256

/-- Concrete truecolour surface contents used by witnesses. -/
def sample_grid32 : Grid Colour :=
  fun x y => ⟨x.natAbs % 256, y.natAbs % 256, 5, 255⟩

/-- Concrete remap tables used by witnesses. -/
def tables_ex : RemapTables :=
  { transparency := fun c => c / 2, crash := fun _ => 1, black := 1 }

/-- Concrete blit parameters used by witnesses: the encoding of
sprite_ex drawn at offset (0, 0) with the identity remap table. -/
def bp_ex : BlitterParams :=
  { sprite := Encode sprite_ex, remap := fun c => c,
    skip_left := 0, skip_top := 0,
    width := sprite_ex.width, height := sprite_ex.height,
    left := 0, top := 0 }

end Blitter

/-- Procedures referenced by the airport chunk handler table in
airport_sl.cpp (Save_ATID, Load_ATID, Save_APID, Load_APID). -/
inductive AirportSlProc
  | Save_ATID
  | Load_ATID
  | Save_APID
  | Load_APID
deriving DecidableEq

/-- Modelled from the spec: the CH_ARRAY chunk type/flag byte (the
saveload.h header defining the numeric value is not part of this
excerpt; the claims depend only on the flag being distinct from the
terminal marker bit). -/
def CH_ARRAY : Nat := 1

/-- Modelled from the spec: the terminal marker flag OR-ed onto the flag
byte of the last chunk of a handler table (saveload.h is not part of this
excerpt). -/
def CH_LAST : Nat := 8

/-- Translated from saveload.h as used by airport_sl.cpp: one chunk
handler entry: four-character id, save/load/ptrs/load-check procedures
and the flag byte. -/
structure ChunkHandler where
  id : Nat
  save_proc : Option AirportSlProc
  load_proc : Option AirportSlProc
  ptrs_proc : Option AirportSlProc
  load_check_proc : Option AirportSlProc
  flags : Nat
deriving DecidableEq

/-- Four-character chunk tag as a big-endian packed 32-bit value, the
value of a C multi-character literal such as the ATID and APID tags. -/
def chunk_tag (c0 c1 c2 c3 : Char) : Nat :=
  ((c0.toNat * 256 + c1.toNat) * 256 + c2.toNat) * 256 + c3.toNat

/-- Translated from airport_sl.cpp: the airport chunk handler table.  The
first entry is tag ATID with Save_ATID/Load_ATID and flags CH_ARRAY, the
second and last entry is tag APID with Save_APID/Load_APID and flags
CH_ARRAY OR CH_LAST. -/
def _airport_chunk_handlers : List ChunkHandler :=
  [ { id := chunk_tag 'A' 'T' 'I' 'D',
      save_proc := some .Save_ATID, load_proc := some .Load_ATID,
      ptrs_proc := none, load_check_proc := none,
      flags := CH_ARRAY },
    { id := chunk_tag 'A' 'P' 'I' 'D',
      save_proc := some .Save_APID, load_proc := some .Load_APID,
      ptrs_proc := none, load_check_proc := none,
      flags := CH_ARRAY ||| CH_LAST } ]

namespace Blitter

/-- C1: for every concrete blitter backend, GetBytesPerPixel times 8
equals GetScreenDepth, and GetScreenDepth is one of 8, 16, 24 or 32. -/
theorem depth_bpp_consistent (k : BlitterKind) :
    GetBytesPerPixel k * 8 = GetScreenDepth k ∧
    (GetScreenDepth k = 8 ∨ GetScreenDepth k = 16 ∨
     GetScreenDepth k = 24 ∨ GetScreenDepth k = 32) := by
  cases k <;> simp [GetBytesPerPixel, GetScreenDepth]

/-- C8: BufferSize is monotonically non-decreasing in both the width and
the height argument, for all arguments at least (1, 1). -/
theorem BufferSize_monotone (k : BlitterKind) (w1 w2 h1 h2 : Nat)
    (_hw1 : 1 ≤ w1) (_hh1 : 1 ≤ h1) (hw : w1 ≤ w2) (hh : h1 ≤ h2) :
    BufferSize k w1 h1 ≤ BufferSize k w2 h1 ∧
    BufferSize k w1 h1 ≤ BufferSize k w1 h2 := by
  unfold BufferSize
  constructor
  · exact Nat.mul_le_mul_right _ (Nat.mul_le_mul_right _ hw)
  · exact Nat.mul_le_mul_right _ (Nat.mul_le_mul_left _ hh)

/-- Witness for C8 at the concrete input (2, 3) against (5, 3) and (2, 7). -/
theorem BufferSize_monotone_witness :
    BufferSize .indexed8 2 3 ≤ BufferSize .indexed8 5 3 ∧
    BufferSize .indexed8 2 3 ≤ BufferSize .indexed8 2 7 :=
  BufferSize_monotone .indexed8 2 5 3 7 (by decide) (by decide)
    (by decide) (by decide)

/-- C7: select always yields a usable registered backend; it records the
result as the active backend; an exact name match returns that backend;
on no match the autodetected flag is set. -/
theorem select_total_spec (name : String) (st : RegistryState) :
    usable (select name st).1 = true
    ∧ get (select name st).2 = some (select name st).1
    ∧ (select name st).1 ∈ blitter_list.map Prod.snd
    ∧ (find_blitter name = none → (select name st).2.autodetected = true)
    ∧ (∀ b, find_blitter name = some b → (select name st).1 = b) := by
  unfold select get
  cases hfind : find_blitter name with
  | some b =>
    have hmem : b ∈ blitter_list.map Prod.snd := by
      unfold find_blitter at hfind
      cases hf : blitter_list.find? (fun p => p.1 == name) with
      | none => rw [hf] at hfind; simp at hfind
      | some p =>
        rw [hf] at hfind
        have hpb : p.snd = b := by simpa using hfind
        cases hpb
        exact List.mem_map_of_mem Prod.snd (List.mem_of_find?_eq_some hf)
    exact ⟨rfl, rfl, hmem, fun h => Option.noConfusion h,
      fun b2 h => Option.some.inj h⟩
  | none =>
    have hmem : autoselect ∈ blitter_list.map Prod.snd := by decide
    exact ⟨rfl, rfl, hmem, fun _ => rfl,
      fun b2 h => Option.noConfusion h⟩

/-- Witness for C7 at the concrete name nonexistent-name: the lookup
fails, yet a backend is selected and the autodetected flag is set. -/
theorem select_total_spec_witness :
    find_blitter "nonexistent-name" = none ∧
    (select "nonexistent-name" ⟨none, false⟩).2.autodetected = true :=
  ⟨by decide,
   (select_total_spec "nonexistent-name" ⟨none, false⟩).2.2.2.1 (by decide)⟩

/-- C10: AllocateSprite yields a block exactly when the allocator does (no
null check, no fallback), and the four metadata fields of the returned
sprite equal the corresponding fields of the loader sprite. -/
theorem AllocateSprite_spec (sprite : LoaderSprite)
    (allocator : Nat → Option SpriteT) (sizeofT extra : Nat) :
    ((AllocateSprite sprite allocator sizeofT extra).isSome
        ↔ (allocator (sizeofT + extra)).isSome)
    ∧ (∀ t, AllocateSprite sprite allocator sizeofT extra = some t →
        t.height = sprite.height ∧ t.width = sprite.width ∧
        t.x_offs = sprite.x_offs ∧ t.y_offs = sprite.y_offs) := by
  constructor
  · unfold AllocateSprite
    cases allocator (sizeofT + extra) <;> simp
  · intro t ht
    unfold AllocateSprite at ht
    cases halloc : allocator (sizeofT + extra) with
    | none => rw [halloc] at ht; exact Option.noConfusion ht
    | some s =>
      rw [halloc] at ht
      have hts : s.payload = t.payload ∧ t.height = sprite.height ∧
          t.width = sprite.width ∧ t.x_offs = sprite.x_offs ∧
          t.y_offs = sprite.y_offs := by
        have h := Option.some.inj ht
        cases h
        exact ⟨rfl, rfl, rfl, rfl, rfl⟩
      exact hts.2

/-- Witness for C10 at a concrete loader sprite and a concrete allocator. -/
theorem AllocateSprite_spec_witness :
    SpriteT.height ⟨3, 5, 2, -1, List.replicate 20 0⟩ = sprite_ex.height ∧
    SpriteT.width ⟨3, 5, 2, -1, List.replicate 20 0⟩ = sprite_ex.width ∧
    SpriteT.x_offs ⟨3, 5, 2, -1, List.replicate 20 0⟩ = sprite_ex.x_offs ∧
    SpriteT.y_offs ⟨3, 5, 2, -1, List.replicate 20 0⟩ = sprite_ex.y_offs :=
  (AllocateSprite_spec sprite_ex alloc_ex 16 4).2
    ⟨3, 5, 2, -1, List.replicate 20 0⟩ (by rfl)

/-- Membership in the clamped scroll rectangle is exactly membership in
the original rectangle both at the pixel itself and at the pixel the
content is shifted from. -/
theorem inRect_scroll_rect {r : Rect} {sx sy x y : Int} :
    inRect (scroll_rect r sx sy) x y ↔
      (inRect r x y ∧ inRect r (x - sx) (y - sy)) := by
  unfold inRect scroll_rect
  dsimp only
  omega

/-- C4: scroll leaves every pixel outside the supplied rectangle
unchanged for arbitrary scroll offsets; the rectangle it reports back is
the clamped visible one, contained in the supplied rectangle; and every
pixel it writes is read from a source position inside the supplied
rectangle. -/
theorem scroll_spec {α : Type} (g : Grid α) (r : Rect) (sx sy : Int) :
    (scroll g r sx sy).2 = scroll_rect r sx sy
    ∧ (∀ x y, ¬ inRect r x y → (scroll g r sx sy).1 x y = g x y)
    ∧ (∀ x y, inRect (scroll g r sx sy).2 x y ↔
        (inRect r x y ∧ inRect r (x - sx) (y - sy)))
    ∧ (∀ x y, inRect (scroll g r sx sy).2 x y →
        (scroll g r sx sy).1 x y = g (x - sx) (y - sy)) := by
  refine ⟨rfl, ?_, ?_, ?_⟩
  · intro x y hout
    show (if inRect (scroll_rect r sx sy) x y then
        g (x - sx) (y - sy) else g x y) = g x y
    rw [if_neg]
    intro hin
    exact hout (inRect_scroll_rect.mp hin).1
  · intro x y
    exact inRect_scroll_rect
  · intro x y hin
    show (if inRect (scroll_rect r sx sy) x y then
        g (x - sx) (y - sy) else g x y) = g (x - sx) (y - sy)
    exact if_pos hin

/-- Witness for C4: a pixel outside a concrete rectangle is untouched by
a concrete scroll. -/
theorem scroll_spec_witness :
    ¬ inRect ⟨0, 0, 4, 4⟩ 10 10 ∧
    (scroll sample_grid8 ⟨0, 0, 4, 4⟩ 1 1).1 10 10 = sample_grid8 10 10 :=
  ⟨by decide, (scroll_spec sample_grid8 ⟨0, 0, 4, 4⟩ 1 1).2.1 10 10 (by decide)⟩

/-- Pasting the buffer captured by copy back at the same place restores
every pixel. -/
theorem paste_copy_pointwise {α : Type} (g : Grid α) (x y : Int)
    (width height : Nat) (px py : Int) :
    paste g (copy g x y width height) x y width height px py = g px py := by
  unfold paste copy
  by_cases h : x ≤ px ∧ px < x + width ∧ y ≤ py ∧ py < y + height
  · rw [if_pos h]
    obtain ⟨h1, h2, h3, h4⟩ := h
    have hj : (py - y).toNat < height := by omega
    have hi : (px - x).toNat < width := by omega
    rw [List.getElem?_map, List.getElem?_range hj, Option.map_some',
        Option.some_bind, List.getElem?_map, List.getElem?_range hi,
        Option.map_some']
    have ex : x + (((px - x).toNat : Nat) : Int) = px := by omega
    have ey : y + (((py - y).toNat : Nat) : Int) = py := by omega
    rw [ex, ey]
  · rw [if_neg h]

/-- Function-level form of the copy/paste round trip. -/
theorem paste_copy_eq {α : Type} (g : Grid α) (x y : Int)
    (width height : Nat) :
    paste g (copy g x y width height) x y width height = g :=
  funext fun px => funext fun py => paste_copy_pointwise g x y width height px py

/-- C5: copy immediately followed by paste of the captured buffer at the
same rectangle leaves the surface pixel-for-pixel identical. -/
theorem copy_paste_roundtrip {α : Type} (g : Grid α) (x y : Int)
    (width height : Nat) :
    (∀ px py,
      paste g (copy g x y width height) x y width height px py = g px py)
    ∧ paste g (copy g x y width height) x y width height = g :=
  ⟨fun px py => paste_copy_pointwise g x y width height px py,
   paste_copy_eq g x y width height⟩

/-- Length of a flatMap over an index range whose pieces all have the
same length. -/
theorem flatMap_range_const_length (f : Nat → List Nat) (c : Nat)
    (hf : ∀ i, (f i).length = c) (n : Nat) :
    ((List.range n).flatMap f).length = n * c := by
  induction n with
  | zero => simp
  | succ m ih =>
    rw [List.range_succ, List.flatMap_append, List.length_append, ih]
    simp [hf, Nat.succ_mul]

/-- Length of export_lines output, for any per-pixel encoding of a fixed
byte width that fits in the destination pitch. -/
theorem export_lines_length {α : Type} (pb : α → List Nat) (bpp : Nat)
    (hpb : ∀ c, (pb c).length = bpp) (g : Grid α)
    (width dst_pitch y height : Nat) (hpitch : width * bpp ≤ dst_pitch) :
    (export_lines pb bpp g width dst_pitch y height).length
      = height * dst_pitch := by
  unfold export_lines
  apply flatMap_range_const_length
  intro j
  rw [List.length_append, List.length_replicate,
    flatMap_range_const_length _ bpp (fun i => hpb _) width]
  omega

/-- C6: export_lines output holds exactly height times dst_pitch bytes,
for the 8bpp backend (one palette byte per pixel) and the truecolour
backend (four packed RGBA bytes per pixel), and the output is unchanged
by a prior copy/paste round trip on the surface. -/
theorem export_lines_spec (g8 : Grid Nat) (g32 : Grid Colour)
    (width dst_pitch8 dst_pitch32 y height : Nat)
    (h8 : width * 1 ≤ dst_pitch8) (h32 : width * 4 ≤ dst_pitch32)
    (cx cy : Int) (cw ch : Nat) :
    (export_lines pixel_bytes_8bpp 1 g8 width dst_pitch8 y height).length
        = height * dst_pitch8
    ∧ (export_lines pixel_bytes_32bpp 4 g32 width dst_pitch32 y height).length
        = height * dst_pitch32
    ∧ export_lines pixel_bytes_8bpp 1
        (paste g8 (copy g8 cx cy cw ch) cx cy cw ch) width dst_pitch8 y height
      = export_lines pixel_bytes_8bpp 1 g8 width dst_pitch8 y height
    ∧ export_lines pixel_bytes_32bpp 4
        (paste g32 (copy g32 cx cy cw ch) cx cy cw ch) width dst_pitch32 y height
      = export_lines pixel_bytes_32bpp 4 g32 width dst_pitch32 y height := by
  refine ⟨?_, ?_, ?_, ?_⟩
  · exact export_lines_length pixel_bytes_8bpp 1 (fun _ => rfl) g8
      width dst_pitch8 y height h8
  · exact export_lines_length pixel_bytes_32bpp 4 (fun _ => rfl) g32
      width dst_pitch32 y height h32
  · rw [paste_copy_eq]
  · rw [paste_copy_eq]

/-- Witness for C6 at concrete surfaces, width 3x2 region and pitches 5
and 16. -/
theorem export_lines_spec_witness :
    (export_lines pixel_bytes_8bpp 1 sample_grid8 3 5 0 2).length = 2 * 5 ∧
    (export_lines pixel_bytes_32bpp 4 sample_grid32 3 16 0 2).length = 2 * 16 :=
  ⟨(export_lines_spec sample_grid8 sample_grid32 3 5 16 0 2
      (by decide) (by decide) 0 0 1 1).1,
   (export_lines_spec sample_grid8 sample_grid32 3 5 16 0 2
      (by decide) (by decide) 0 0 1 1).2.1⟩

/-- C2: encoding a loader sprite and drawing the result with BM_NORMAL at
offset (0, 0) writes the source colour (the mask/palette channel of the
8bpp backend) at the corresponding position, for every fully opaque
non-transparent pixel. -/
theorem encode_draw_roundtrip (tables : RemapTables) (g : Grid Nat)
    (sprite : LoaderSprite) (x y : Nat)
    (hx : x < sprite.width) (hy : y < sprite.height)
    (ha : (sprite.pixels x y).a = 255) (hm : (sprite.pixels x y).m ≠ 0) :
    Draw tables g
      { sprite := Encode sprite, remap := fun c => c, skip_left := 0,
        skip_top := 0, width := sprite.width, height := sprite.height,
        left := 0, top := 0 } .BM_NORMAL (x : Int) (y : Int)
      = (sprite.pixels x y).m := by
  simp only [Draw, Encode]
  have hxx : (0 + (((x : Int) - 0)).toNat) = x := by omega
  have hyy : (0 + (((y : Int) - 0)).toNat) = y := by omega
  rw [if_pos (by omega : (0 : Int) ≤ (x : Int) ∧ (x : Int) < 0 + (sprite.width : Int)
      ∧ (0 : Int) ≤ (y : Int) ∧ (y : Int) < 0 + (sprite.height : Int))]
  rw [hxx, hyy]
  rw [if_neg (by omega : ¬ (sprite.pixels x y).a = 0)]
  rw [if_neg hm]

/-- Witness for C2: the concrete sprite draws its palette channel 7 at
pixel (1, 2). -/
theorem encode_draw_roundtrip_witness :
    Draw tables_ex sample_grid8 bp_ex .BM_NORMAL 1 2 = 7 := by
  have h := encode_draw_roundtrip tables_ex sample_grid8 sprite_ex 1 2
    (by decide) (by decide) rfl (by decide)
  exact h

/-- C3: drawing with BM_COLOUR_REMAP through an identity remap table
produces a destination pixel-identical to drawing with BM_NORMAL. -/
theorem colour_remap_identity (tables : RemapTables) (g : Grid Nat)
    (bp : BlitterParams) (hremap : ∀ c, bp.remap c = c) (px py : Int) :
    Draw tables g bp .BM_COLOUR_REMAP px py = Draw tables g bp .BM_NORMAL px py := by
  simp only [Draw]
  by_cases hin : bp.left ≤ px ∧ px < bp.left + bp.width ∧
      bp.top ≤ py ∧ py < bp.top + bp.height
  · rw [if_pos hin, if_pos hin]
    by_cases hs : bp.sprite.data (bp.skip_left + (px - bp.left).toNat)
        (bp.skip_top + (py - bp.top).toNat) = 0
    · rw [if_pos hs, if_pos hs]
    · rw [if_neg hs, if_neg hs, hremap, if_neg hs]
  · rw [if_neg hin, if_neg hin]

/-- Witness for C3 at a concrete surface, sprite and pixel, with the
identity remap table. -/
theorem colour_remap_identity_witness :
    Draw tables_ex sample_grid8 bp_ex .BM_COLOUR_REMAP 1 1
      = Draw tables_ex sample_grid8 bp_ex .BM_NORMAL 1 1 :=
  colour_remap_identity tables_ex sample_grid8 bp_ex (fun _ => rfl) 1 1

end Blitter

/-- C9: the airport chunk handler table registers exactly the tags ATID
and APID, both flag bytes carry CH_ARRAY, and only the final entry (APID)
has its flag byte OR-ed with the terminal marker CH_LAST. -/
theorem airport_chunk_handlers_spec :
    _airport_chunk_handlers.length = 2
    ∧ _airport_chunk_handlers.map (fun h => h.id)
        = [chunk_tag 'A' 'T' 'I' 'D', chunk_tag 'A' 'P' 'I' 'D']
    ∧ _airport_chunk_handlers.map (fun h => h.flags)
        = [CH_ARRAY, CH_ARRAY ||| CH_LAST]
    ∧ _airport_chunk_handlers.map (fun h => h.flags &&& CH_LAST ≠ 0)
        = [False, True] := by
  refine ⟨rfl, rfl, rfl, ?_⟩
  simp [_airport_chunk_handlers, CH_ARRAY, CH_LAST]
